import Mathlib

/-!
Verification of the SWE-agent GitHub wrapper repository.

The development shallowly embeds the two Python source files:
  * `.github/scripts/swe_agent_wrapper.py` — a sequential orchestration
    script around the GitHub API, an external coding agent and a git client;
  * `hello_world.py` — a single constant function.

External side effects (GitHub API requests, the agent run, git operations)
are modelled as an explicit event trace, and the outcomes of the external
calls that the script wraps in `try`/`except` blocks are supplied by an
oracle structure `World`.  Python exceptions are modelled with `Except`:
a raised exception is an `Except.error` value carrying the exception's
type name and message.  Local file writes performed by the script
(the agent data file) are not external calls in the sense of the spec and
are not traced, except for the patch file, which is one of the documented
patch-application steps.
-/

/-- `hello_world.py`, function `hello_world`: returns the constant string. -/
def hello_world : String := "Hello, World!"

/-- A Python exception value: its type name together with its message. -/
inductive PyErr where
  | valueError (msg : String)
  | exception (msg : String)
  deriving DecidableEq, Repr

/-- `type(e).__name__` for the modelled exception. -/
def PyErr.name : PyErr → String
  | .valueError _ => "ValueError"
  | .exception _ => "Exception"

/-- `str(e)` for the modelled exception. -/
def PyErr.msg : PyErr → String
  | .valueError m => m
  | .exception m => m

/-- The `f"{type(e).__name__}: {str(e)}"` rendering used by `run`. -/
def PyErr.render (e : PyErr) : String := e.name ++ ": " ++ e.msg

/-- One issue/PR comment as returned by the GitHub client: the author's
login and the comment body. -/
structure CommentData where
  user : String
  body : String
  deriving DecidableEq, Repr

/-- The fields of a GitHub issue that the script reads. -/
structure IssueData where
  title : String
  body : String
  comments : List CommentData
  deriving DecidableEq, Repr

/-- The fields of a GitHub pull request.  The script reads only the title
and the body; the comment list records what exists on the server and is
never fetched by the code. -/
structure PRData where
  title : String
  body : String
  comments : List CommentData
  deriving DecidableEq, Repr

/-- The unstructured result dictionary returned by the external agent.
`Option` fields model `dict.get` with a missing key as `none`;
`success` models `results.get('success', False)` collapsed to its
truth value. -/
structure AgentResult where
  model_name : Option String
  total_cost : Option ℚ
  success : Bool
  analysis : Option String
  patch : Option String
  explanation : Option String
  test_output : Option String
  review_comments : Option String
  notes : Option String
  deriving DecidableEq, Repr

/-- Observable calls made by the script.  `rejectCommand` marks the point
where `validate_command` raises, and `applyPatchCall` marks the call of
`apply_patch_to_pr` from `run`; neither is an external call. -/
inductive Ev where
  | ghGetRepo (name : String)
  | ghGetIssue (n : Int)
  | ghGetComments (n : Int)
  | ghGetPull (n : Int)
  | ghCreateComment (body : String)
  | ghEditComment (body : String)
  | ghDeleteComment
  | agentRun (problem : String)
  | gitClone (url : String)
  | gitCheckout (ref : String)
  | writePatchFile (content : String)
  | gitApply
  | gitAdd
  | gitCommit (msg : String)
  | gitPush (ref : String)
  | rejectCommand
  | applyPatchCall (patch : String)
  deriving DecidableEq, Repr

/-- An external call in the sense of the spec: a GitHub API request, an
agent run, or a git operation.  The two markers and the local patch-file
write are not external. -/
def Ev.isExternal : Ev → Bool
  | .ghGetRepo _ => true
  | .ghGetIssue _ => true
  | .ghGetComments _ => true
  | .ghGetPull _ => true
  | .ghCreateComment _ => true
  | .ghEditComment _ => true
  | .ghDeleteComment => true
  | .agentRun _ => true
  | .gitClone _ => true
  | .gitCheckout _ => true
  | .writePatchFile _ => false
  | .gitApply => true
  | .gitAdd => true
  | .gitCommit _ => true
  | .gitPush _ => true
  | .rejectCommand => false
  | .applyPatchCall _ => false

/-- A git operation event. -/
def Ev.isGit : Ev → Bool
  | .gitClone _ => true
  | .gitCheckout _ => true
  | .gitApply => true
  | .gitAdd => true
  | .gitCommit _ => true
  | .gitPush _ => true
  | _ => false

/-- Oracle for the external world: the data the GitHub API returns, the
current time string, the access token, and the outcome of each external
call whose failure the script handles.  An `Except.error` holds the
`str(e)` of the exception the call raised. -/
structure World where
  now : String
  token : String
  getIssue : Except String IssueData
  getPull : Except String PRData
  agent : Except String AgentResult
  clone : Except String Unit
  checkout : Except String Unit
  applyPatch : Except String Unit
  push : Except String Unit
  deriving Repr

/-- The constructor state of `SWEAgentGitHubWrapper`: the arguments stored
by `__init__`.  `repo_name` is the full name passed to `get_repo`, and the
script later reads it back as `self.repo.full_name`. -/
structure Wrapper where
  repo_name : String
  issue_number : Int
  context_type : String
  command : String
  pr_head_ref : Option String
  pr_base_ref : Option String
  deriving DecidableEq, Repr

/-- Python truthiness of a string: non-empty. -/
def truthyStr : Option String → Bool
  | none => false
  | some s => s ≠ ""

/-- Python truthiness of `self.pr_head_ref` (either `None` or a string). -/
def truthyOpt (o : Option String) : Bool := truthyStr o

/-- Python `f"{x}"` applied to an optional string: `None` renders as
the four characters `None`. -/
def pyStr : Option String → String
  | none => "None"
  | some s => s

/-- Python `dict.get(key, default)`: the default is used only when the key
is missing. -/
def pyGet (o : Option String) (d : String) : String := o.getD d

/-- Python `l[-5:]`: the last `n` elements of a list. -/
def lastN (n : Nat) (l : List α) : List α := l.drop (l.length - n)

/-- Python `f"{cost:.2f}"`, modelled at rational precision for the
non-negative cost values the script handles: round `q` to a whole number
of hundredths — `c = ⌊100q + 1/2⌋` computed on the numerator and
denominator — and print with two digits after the point. -/
def pyFormatDot2 (q : ℚ) : String :=
  let c : Int := (200 * q.num + q.den) / (2 * q.den)
  toString (c / 100) ++ "." ++ (if c % 100 < 10 then "0" else "") ++ toString (c % 100)

/-- The message of the `ValueError` raised by `validate_command`. -/
def invalidCommandMsg (cmd : String) : String :=
  "Invalid command '" ++ cmd ++ "'. Valid commands: analyze, fix, test, review"

/-- Membership of the command in the `valid_commands` dictionary. -/
def validCmd (cmd : String) : Bool :=
  cmd == "analyze" || cmd == "fix" || cmd == "test" || cmd == "review"

/-- `SWEAgentGitHubWrapper.validate_command`: either the description of a
valid command or the raised `ValueError`. -/
def validate_command (cmd : String) : Except PyErr String :=
  if cmd == "analyze" then .ok "Analyze the issue without proposing changes"
  else if cmd == "fix" then .ok "Analyze and propose a fix"
  else if cmd == "test" then .ok "Run tests on the current code"
  else if cmd == "review" then .ok "Review the current changes"
  else .error (.valueError (invalidCommandMsg cmd))

/-- A pull-request context, as tested by the script's membership checks. -/
def isPRContext (ct : String) : Bool :=
  ct == "pull_request" || ct == "pull_request_comment"

/-- An issue context. -/
def isIssueContext (ct : String) : Bool :=
  ct == "issues" || ct == "issue_comment"

/-- The body of the status comment posted or edited by `post_status`.
`now` is the formatted `datetime.utcnow()` string, including the trailing
`UTC` produced by the format string. -/
def statusBody (cmd now msg : String) : String :=
  "## 🤖 SWE-Agent Status\n\n**Command**: `" ++ (cmd ++ ("`\n**Time**: " ++ (now ++
  ("\n\n### Status:\n" ++ (msg ++
  "\n\n---\n*This comment will be updated as the analysis progresses...*\n")))))

/-- The body of the error comment posted by `post_error`. -/
def post_error_body (cmd errMsg : String) : String :=
  "## ❌ SWE-Agent Error\n\n**Command**: `" ++ (cmd ++ ("`\n**Error**: " ++ (errMsg ++
  "\n\nPlease check:\n1. The command syntax is correct\n2. Required secrets (API keys) are configured\n3. The repository has the necessary permissions\n\nValid commands: `analyze`, `fix`, `test`, `review`\n\nExample usage:\n```\n@swe-agent-bot fix\n@swe-agent-bot analyze\n```\n\n---\n*If this error persists, please check the workflow logs for more details.*\n")))

/-- The title/description header built for an issue context. -/
def issueHeader (d : IssueData) : String :=
  "Issue Title: " ++ (d.title ++ ("\n\nIssue Description:\n" ++ (d.body ++ "\n\n")))

/-- One rendered comment inside the `Recent Comments` section. -/
def commentBlock (c : CommentData) : String :=
  "\n---\n@" ++ (c.user ++ (": " ++ (c.body ++ "\n")))

/-- Concatenation of a list of strings, in order. -/
def catStr : List String → String
  | [] => ""
  | s :: rest => s ++ catStr rest

/-- The `Recent Comments` section appended for an issue with comments:
the last five comments, rendered in order.  The emptiness test is on the
full comment list, as in the source. -/
def recentSection (cs : List CommentData) : String :=
  if cs.isEmpty then "" else
    "Recent Comments:\n" ++ catStr ((lastN 5 cs).map commentBlock)

/-- The statement built for a pull-request context: title and body only. -/
def prHeader (p : PRData) : String :=
  "PR Title: " ++ (p.title ++ ("\n\nPR Description:\n" ++ p.body))

/-- `SWEAgentGitHubWrapper.extract_problem_statement`: the returned value
(`none` models Python's implicit `None` when neither context branch
matches) together with the trace of GitHub API calls made.  A failing
API call is re-raised as `Exception("Failed to extract problem statement: ...")`. -/
def extract_problem_statement (w : Wrapper) (world : World) :
    Except PyErr (Option String) × List Ev :=
  if isIssueContext w.context_type then
    match world.getIssue with
    | .error e =>
        (.error (.exception ("Failed to extract problem statement: " ++ e)),
         [.ghGetIssue w.issue_number])
    | .ok d =>
        (.ok (some (issueHeader d ++ recentSection d.comments)),
         [.ghGetIssue w.issue_number, .ghGetComments w.issue_number])
  else if isPRContext w.context_type then
    match world.getPull with
    | .error e =>
        (.error (.exception ("Failed to extract problem statement: " ++ e)),
         [.ghGetPull w.issue_number])
    | .ok p => (.ok (some (prHeader p)), [.ghGetPull w.issue_number])
  else (.ok none, [])

/-- The command-specific prefix prepended to the problem statement inside
`run_swe_agent`. -/
def commandPrefix (cmd p : String) : String :=
  if cmd == "analyze" then
    "Analyze this issue and provide insights, but do not propose code changes:\n\n" ++ p
  else if cmd == "fix" then "Analyze and fix this issue:\n\n" ++ p
  else if cmd == "test" then "Run relevant tests and report results:\n\n" ++ p
  else if cmd == "review" then
    "Review the current code/changes and provide feedback:\n\n" ++ p
  else p

/-- `SWEAgentGitHubWrapper.run_swe_agent`: two status edits, then the agent
run.  Any exception is re-raised as
`Exception("SWE-Agent execution failed: ...")`.  The status comment exists
whenever `run` calls this, so the two update calls edit it.  The local
data-file write and removal are not traced. -/
def run_swe_agent (w : Wrapper) (world : World) (problem : Option String) :
    Except PyErr AgentResult × List Ev :=
  let adjusted := commandPrefix w.command (pyStr problem)
  let tr : List Ev :=
    [.ghEditComment (statusBody w.command world.now "🔄 Initializing SWE-Agent..."),
     .ghEditComment (statusBody w.command world.now "🔍 Analyzing the problem..."),
     .agentRun adjusted]
  match world.agent with
  | .ok r => (.ok r, tr)
  | .error e => (.error (.exception ("SWE-Agent execution failed: " ++ e)), tr)

/-- The authenticated clone URL built by `apply_patch_to_pr`. -/
def cloneUrl (token fullName : String) : String :=
  "https://x-access-token:" ++ token ++ "@github.com/" ++ fullName ++ ".git"

/-- The commit message used by `apply_patch_to_pr`. -/
def patchCommitMsg (n : Int) : String := "Apply SWE-Agent fix for #" ++ toString n

/-- `SWEAgentGitHubWrapper.apply_patch_to_pr`: guard on the head ref and
the context type, then clone, checkout, patch-file write, apply, stage,
commit, push.  Both `try` blocks turn exceptions into a
`(False, "Failed to apply patch: ...")` return, so the function itself
never raises.  The patch-file write and the staging/commit are modelled
as infallible; clone, checkout, apply and push take their outcome from
the oracle. -/
def apply_patch_to_pr (w : Wrapper) (world : World) (patch : String) :
    Except PyErr (Bool × String) × List Ev :=
  if !truthyOpt w.pr_head_ref || !isPRContext w.context_type then
    (.ok (false, "Not a pull request context"), [])
  else
    let url := cloneUrl world.token w.repo_name
    let ref := w.pr_head_ref.getD ""
    match world.clone with
    | .error e => (.ok (false, "Failed to apply patch: " ++ e), [.gitClone url])
    | .ok _ =>
      match world.checkout with
      | .error e =>
          (.ok (false, "Failed to apply patch: " ++ e), [.gitClone url, .gitCheckout ref])
      | .ok _ =>
        match world.applyPatch with
        | .error e =>
            (.ok (false, "Failed to apply patch: " ++ e),
             [.gitClone url, .gitCheckout ref, .writePatchFile patch, .gitApply])
        | .ok _ =>
          match world.push with
          | .error e =>
              (.ok (false, "Failed to apply patch: " ++ e),
               [.gitClone url, .gitCheckout ref, .writePatchFile patch, .gitApply,
                .gitAdd, .gitCommit (patchCommitMsg w.issue_number), .gitPush ref])
          | .ok _ =>
              (.ok (true, "Patch applied successfully"),
               [.gitClone url, .gitCheckout ref, .writePatchFile patch, .gitApply,
                .gitAdd, .gitCommit (patchCommitMsg w.issue_number), .gitPush ref])

/-- The `**Command**` line of the result comment. -/
def commandLine (cmd : String) : String := "**Command**: `" ++ (cmd ++ "`")

/-- The `**Model**` line of the result comment. -/
def modelLine (m : String) : String := "**Model**: " ++ m

/-- The `**Cost**` line of the result comment. -/
def costLine (c : String) : String := "**Cost**: $" ++ c

/-- The `**Status**` line of the result comment. -/
def statusLine (s : String) : String := "**Status**: " ++ s

/-- The header block of the result comment built by `format_results`. -/
def baseResponse (cmd model costS statusS : String) : String :=
  "## ✅ SWE-Agent Analysis Complete\n\n" ++ (commandLine cmd ++ ("\n" ++
  (modelLine model ++ ("\n" ++ (costLine costS ++ ("\n" ++
  (statusLine statusS ++ "\n")))))))

/-- The command-specific section of the result comment. -/
def commandSection (cmd : String) (r : AgentResult)
    (patch_applied : Bool) (patch_message : String) : String :=
  if cmd == "analyze" then
    "\n### Analysis:\n" ++ (pyGet r.analysis "No analysis provided" ++ "\n")
  else if cmd == "fix" then
    if truthyStr r.patch then
      "\n### Proposed Solution:\n```diff\n" ++ (pyGet r.patch "No changes proposed" ++
      ("\n```\n\n### Explanation:\n" ++ (pyGet r.explanation "No explanation provided" ++ ("\n" ++
      (if patch_applied then "\n✅ **Patch automatically applied to PR branch**"
       else if patch_message ≠ "" then "\n⚠️ **Patch not applied**: " ++ patch_message
       else "")))))
    else "\n### Result:\nNo code changes were necessary to address this issue.\n"
  else if cmd == "test" then
    "\n### Test Results:\n```\n" ++ (pyGet r.test_output "No test output available" ++ "\n```\n")
  else if cmd == "review" then
    "\n### Code Review:\n" ++ (pyGet r.review_comments "No review comments provided" ++ "\n")
  else ""

/-- The `Additional Notes` section, present when `notes` is truthy. -/
def notesSection (r : AgentResult) : String :=
  if truthyStr r.notes then "\n### Additional Notes:\n" ++ pyGet r.notes "" ++ "\n" else ""

/-- The fixed footer of the result comment. -/
def responseFooter : String :=
  "\n---\n*This analysis was performed automatically by SWE-Agent. Please review any proposed changes carefully.*\n"

/-- `SWEAgentGitHubWrapper.format_results`. -/
def format_results (w : Wrapper) (r : AgentResult)
    (patch_applied : Bool) (patch_message : String) : String :=
  baseResponse w.command (pyGet r.model_name "Unknown")
      (pyFormatDot2 (r.total_cost.getD 0))
      (if r.success then "Success" else "Completed with issues") ++
  (commandSection w.command r patch_applied patch_message ++
  (notesSection r ++ responseFooter))

/-- The condition under which `run` applies the patch: the command is
`fix`, the result's patch is a truthy (non-empty) string, and the context
is a pull-request context. -/
def patchCond (w : Wrapper) (r : AgentResult) : Bool :=
  w.command == "fix" && truthyStr r.patch && isPRContext w.context_type

/-- The `try` block of `SWEAgentGitHubWrapper.run`: result, trace, and
whether `self.status_comment` is set at the point control leaves the
block (the handler consults it). -/
def Wrapper.run_body (w : Wrapper) (world : World) :
    Except PyErr Unit × List Ev × Bool :=
  match validate_command w.command with
  | .error e => (.error e, [.rejectCommand], false)
  | .ok desc =>
    let tr1 : List Ev :=
      [.ghGetIssue w.issue_number,
       .ghCreateComment (statusBody w.command world.now ("🚀 Starting: " ++ desc))]
    match extract_problem_statement w world with
    | (.error e, tr2) => (.error e, tr1 ++ tr2, true)
    | (.ok problem, tr2) =>
      match run_swe_agent w world problem with
      | (.error e, tr3) => (.error e, tr1 ++ tr2 ++ tr3, true)
      | (.ok results, tr3) =>
        let patchStep : Except PyErr (Bool × String) × List Ev :=
          if patchCond w results then
            match apply_patch_to_pr w world (pyGet results.patch "") with
            | (.ok bm, trA) =>
                (.ok bm,
                 .ghEditComment (statusBody w.command world.now
                     "📝 Applying patch to PR branch...") ::
                 .applyPatchCall (pyGet results.patch "") :: trA)
            | (.error e, trA) =>
                (.error e,
                 .ghEditComment (statusBody w.command world.now
                     "📝 Applying patch to PR branch...") ::
                 .applyPatchCall (pyGet results.patch "") :: trA)
          else (.ok (false, ""), [])
        match patchStep with
        | (.error e, tr4) => (.error e, tr1 ++ tr2 ++ tr3 ++ tr4, true)
        | (.ok (patch_applied, patch_message), tr4) =>
          let formatted := format_results w results patch_applied patch_message
          (.ok (),
           tr1 ++ tr2 ++ tr3 ++ tr4 ++
             [.ghDeleteComment, .ghGetIssue w.issue_number,
              .ghCreateComment formatted],
           true)

/-- `SWEAgentGitHubWrapper.run`: the `try` block, and on failure the
handler, which deletes the status comment when it exists, posts the error
comment via `post_error`, and re-raises the same exception. -/
def Wrapper.run (w : Wrapper) (world : World) : Except PyErr Unit × List Ev :=
  match w.run_body world with
  | (.ok u, tr, _) => (.ok u, tr)
  | (.error e, tr, sc) =>
      (.error e,
       tr ++ (if sc then [Ev.ghDeleteComment] else []) ++
         [.ghGetIssue w.issue_number,
          .ghCreateComment (post_error_body w.command e.render)])

/-- The command-line arguments parsed by `main`.  `--command` defaults to
`fix` and the ref arguments default to the empty string; argparse itself
imposes no restriction on the command value. -/
structure Args where
  context : String
  issue_number : Int
  repo : String
  command : String
  pr_head_ref : String
  pr_base_ref : String
  deriving DecidableEq, Repr

/-- `SWEAgentGitHubWrapper.__init__`: stores the arguments and performs
the `get_repo` GitHub API request. -/
def mkWrapper (a : Args) : Wrapper × List Ev :=
  (⟨a.repo, a.issue_number, a.context, a.command,
    some a.pr_head_ref, some a.pr_base_ref⟩,
   [.ghGetRepo a.repo])

/-- `main`: construct the wrapper from the arguments and run it. -/
def mainModel (a : Args) (world : World) : Except PyErr Unit × List Ev :=
  let wtr := mkWrapper a
  let r := wtr.1.run world
  (r.1, wtr.2 ++ r.2)

/-! ### String and trace observations used to state the claims -/

/-- Substring test on character lists: some drop of `s` starts with `sub`. -/
def infixOfB (sub s : List Char) : Bool :=
  (List.range (s.length + 1)).any fun n => sub.isPrefixOf (s.drop n)

/-- Substring test on strings. -/
def strContains (s sub : String) : Bool := infixOfB sub.data s.data

/-- Ordered-occurrence test: each pattern occurs in `s`, and the
occurrences appear in the order the patterns are listed, without
overlapping. -/
def containsInOrder : List (List Char) → List Char → Bool
  | [], _ => true
  | p :: ps, s =>
    (List.range (s.length + 1)).any fun n =>
      p.isPrefixOf (s.drop n) && containsInOrder ps (s.drop (n + p.length))

/-- The distinguishing header of the `post_error` comment template. -/
def isErrorBody (b : String) : Bool := "## ❌".data.isPrefixOf b.data

/-- A `create_comment` call posting an error-template comment. -/
def isErrEv : Ev → Bool
  | .ghCreateComment b => isErrorBody b
  | _ => false

/-- How many error comments a trace posts. -/
def errCommentCount (tr : List Ev) : Nat := tr.countP isErrEv

/-- The marker for a call of `apply_patch_to_pr` from `run`. -/
def isApplyCall : Ev → Bool
  | .applyPatchCall _ => true
  | _ => false

/-- Whether a run's trace shows a patch-application attempt. -/
def patchAttempted (tr : List Ev) : Bool := tr.any isApplyCall

/-! ### Concrete fixtures used by witnesses and counterexamples -/

/-- A concrete agent result with every field populated. -/
def sampleResult : AgentResult :=
  ⟨some "gpt-4", some 0, true, some "ANALYSIS", some "PATCHTEXT",
   some "EXPLANATION", some "TESTOUT", some "REVIEWTEXT", none⟩

/-- A concrete issue with one comment. -/
def sampleIssue : IssueData := ⟨"ITITLE", "IBODY", [⟨"alice", "FIRSTCOMMENT"⟩]⟩

/-- A concrete pull request carrying one comment on the server. -/
def samplePR : PRData := ⟨"PTITLE", "PBODY", [⟨"bob", "XYZZY"⟩]⟩

/-- A fully successful external world. -/
def sampleWorld : World :=
  ⟨"2025-01-01 00:00:00 UTC", "tok", .ok sampleIssue, .ok samplePR,
   .ok sampleResult, .ok (), .ok (), .ok (), .ok ()⟩

/-- Command-line arguments with a command outside the valid set. -/
def argsBad : Args := ⟨"issues", 7, "octo/repo", "deploy", "", ""⟩

/-- A wrapper whose command is outside the valid set. -/
def wrapperBad : Wrapper := ⟨"octo/repo", 7, "issues", "deploy", none, none⟩

/-- A wrapper whose context type is outside the four recognised values. -/
def wrapperOdd : Wrapper := ⟨"octo/repo", 3, "push", "analyze", none, none⟩

/-- A `fix`-command wrapper in a pull-request context with a head ref. -/
def wrapperFix : Wrapper :=
  ⟨"octo/repo", 5, "pull_request", "fix", some "feature", none⟩

/-- A `review`-command wrapper in the same pull-request context. -/
def wrapperReview : Wrapper :=
  ⟨"octo/repo", 5, "pull_request", "review", some "feature", none⟩

/-- An issue-context wrapper. -/
def wrapperIssue : Wrapper := ⟨"octo/repo", 7, "issues", "analyze", none, none⟩

/-- A `fix` result whose `patch` key is absent. -/
def resultNoPatch : AgentResult :=
  ⟨some "gpt-4", some 0, true, none, none, some "EXPLANATION", none, none, none⟩

theorem infixOfB_intro {sub s : List Char} (n : Nat) (hn : n ≤ s.length)
    (h : sub.isPrefixOf (s.drop n) = true) : infixOfB sub s = true := by
  unfold infixOfB
  exact List.any_eq_true.mpr ⟨n, List.mem_range.mpr (by omega), h⟩

theorem strContains_self (s : String) : strContains s s = true := by
  unfold strContains
  exact infixOfB_intro 0 (Nat.zero_le _) (by simp)

theorem strContains_append_left (t s sub : String)
    (h : strContains s sub = true) : strContains (t ++ s) sub = true := by
  unfold strContains infixOfB at h ⊢
  obtain ⟨n, hmem, hpre⟩ := List.any_eq_true.mp h
  refine List.any_eq_true.mpr ⟨t.data.length + n, List.mem_range.mpr ?_, ?_⟩
  · have := List.mem_range.mp hmem
    simp only [String.data_append, List.length_append]
    omega
  · rw [String.data_append, List.drop_append]
    exact hpre

theorem strContains_append_right (s t sub : String)
    (h : strContains s sub = true) : strContains (s ++ t) sub = true := by
  unfold strContains infixOfB at h ⊢
  obtain ⟨n, hmem, hpre⟩ := List.any_eq_true.mp h
  have hn : n ≤ s.data.length := by
    have := List.mem_range.mp hmem; omega
  refine List.any_eq_true.mpr ⟨n, List.mem_range.mpr ?_, ?_⟩
  · simp only [String.data_append, List.length_append]; omega
  · rw [String.data_append, List.drop_append_of_le_length hn]
    rw [List.isPrefixOf_iff_prefix] at hpre ⊢
    exact hpre.trans (List.prefix_append _ _)

theorem containsInOrder_prepend {ps : List (List Char)} {s : List Char}
    (pre : List Char) (h : containsInOrder ps s = true) :
    containsInOrder ps (pre ++ s) = true := by
  cases ps with
  | nil => rfl
  | cons p ps =>
    unfold containsInOrder at h ⊢
    obtain ⟨n, hmem, hok⟩ := List.any_eq_true.mp h
    rw [Bool.and_eq_true] at hok
    refine List.any_eq_true.mpr ⟨pre.length + n, List.mem_range.mpr ?_, ?_⟩
    · have := List.mem_range.mp hmem
      simp only [List.length_append]; omega
    · rw [Bool.and_eq_true, List.drop_append,
        Nat.add_assoc, List.drop_append]
      exact hok

theorem containsInOrder_cons {ps : List (List Char)} {rest : List Char}
    (p : List Char) (h : containsInOrder ps rest = true) :
    containsInOrder (p :: ps) (p ++ rest) = true := by
  unfold containsInOrder
  refine List.any_eq_true.mpr ⟨0, List.mem_range.mpr (by omega), ?_⟩
  rw [Bool.and_eq_true]
  constructor
  · simp
  · rw [Nat.zero_add, List.drop_left]
    exact h

theorem get3_of_isPrefixOf {p l : List Char} (h : p.isPrefixOf l = true)
    (hlen : 3 < p.length) : l[3]? = p[3]? := by
  rw [List.isPrefixOf_iff_prefix] at h
  obtain ⟨t, rfl⟩ := h
  exact List.getElem?_append_left hlen

theorem isErrorBody_eq_false_of_get3 {b : String}
    (h : b.data[3]? ≠ some '❌') : isErrorBody b = false := by
  unfold isErrorBody
  cases hb : ("## ❌".data.isPrefixOf b.data) with
  | false => rfl
  | true =>
    exact absurd (by rw [get3_of_isPrefixOf hb (by decide)]; rfl) h

theorem isErrorBody_statusBody (cmd now msg : String) :
    isErrorBody (statusBody cmd now msg) = false := by
  apply isErrorBody_eq_false_of_get3
  unfold statusBody
  rw [String.data_append, List.getElem?_append_left (by decide)]
  decide

theorem isErrorBody_format_results (w : Wrapper) (r : AgentResult)
    (pa : Bool) (pm : String) :
    isErrorBody (format_results w r pa pm) = false := by
  apply isErrorBody_eq_false_of_get3
  unfold format_results baseResponse
  rw [String.data_append, String.data_append]
  rw [List.getElem?_append_left
      (by rw [List.length_append]
          have h4 : 3 < ("## ✅ SWE-Agent Analysis Complete\n\n").data.length := by decide
          omega)]
  rw [List.getElem?_append_left (by decide)]
  decide

theorem isErrorBody_post_error_body (cmd msg : String) :
    isErrorBody (post_error_body cmd msg) = true := by
  unfold isErrorBody post_error_body
  rw [String.data_append, List.isPrefixOf_iff_prefix]
  have h : ("## ❌".data.isPrefixOf
      ("## ❌ SWE-Agent Error\n\n**Command**: `").data) = true := by decide
  exact (List.isPrefixOf_iff_prefix.mp h).trans (List.prefix_append _ _)

theorem errCommentCount_extract (w : Wrapper) (world : World) :
    errCommentCount (extract_problem_statement w world).2 = 0 := by
  unfold extract_problem_statement
  split
  · cases world.getIssue <;> simp [errCommentCount, isErrEv]
  · split
    · cases world.getPull <;> simp [errCommentCount, isErrEv]
    · simp [errCommentCount]

theorem errCommentCount_run_swe_agent (w : Wrapper) (world : World)
    (p : Option String) :
    errCommentCount (run_swe_agent w world p).2 = 0 := by
  unfold run_swe_agent
  cases world.agent <;> simp [errCommentCount, isErrEv]

theorem errCommentCount_apply_patch (w : Wrapper) (world : World)
    (patch : String) :
    errCommentCount (apply_patch_to_pr w world patch).2 = 0 := by
  unfold apply_patch_to_pr
  split
  · simp [errCommentCount]
  · cases world.clone with
    | error e => simp [errCommentCount, isErrEv]
    | ok u =>
      cases world.checkout with
      | error e => simp [errCommentCount, isErrEv]
      | ok u2 =>
        cases world.applyPatch with
        | error e => simp [errCommentCount, isErrEv]
        | ok u3 =>
          cases world.push with
          | error e => simp [errCommentCount, isErrEv]
          | ok u4 => simp [errCommentCount, isErrEv]

theorem errCommentCount_append (a b : List Ev) :
    errCommentCount (a ++ b) = errCommentCount a + errCommentCount b :=
  List.countP_append ..


/-! ### Shared helper lemmas about `run` -/

theorem validate_command_isOk (cmd : String) (h : validCmd cmd = true) :
    ∃ d, validate_command cmd = .ok d := by
  simp only [validCmd, Bool.or_eq_true, beq_iff_eq] at h
  rcases h with ((h | h) | h) | h <;> subst h <;> exact ⟨_, rfl⟩

/-- Behaviour of `run` on an invalid command: the rejection marker is the
first trace entry, the result is the `ValueError`, and the only calls made
afterwards are the two of the error report. -/
theorem run_invalid_eq (w : Wrapper) (world : World)
    (h : validCmd w.command = false) :
    w.run world =
      (.error (.valueError (invalidCommandMsg w.command)),
       [.rejectCommand, .ghGetIssue w.issue_number,
        .ghCreateComment (post_error_body w.command
          ("ValueError: " ++ invalidCommandMsg w.command))]) := by
  simp only [validCmd, Bool.or_eq_false_iff] at h
  obtain ⟨⟨⟨h1, h2⟩, h3⟩, h4⟩ := h
  unfold Wrapper.run Wrapper.run_body validate_command
  rw [h1, h2, h3, h4]
  simp [PyErr.render, PyErr.name, PyErr.msg]

theorem errCommentCount_run_body (w : Wrapper) (world : World) :
    errCommentCount (w.run_body world).2.1 = 0 := by
  unfold Wrapper.run_body
  cases hv : validate_command w.command with
  | error e => simp [errCommentCount, isErrEv]
  | ok desc =>
    dsimp only
    rcases hE : extract_problem_statement w world with ⟨res2, tr2⟩
    have htr2 : errCommentCount tr2 = 0 := by
      have h0 := errCommentCount_extract w world
      rw [hE] at h0; exact h0
    cases res2 with
    | error e =>
      simp only [errCommentCount, List.countP_append, List.countP_cons,
        List.countP_nil, isErrEv, isErrorBody_statusBody, Bool.false_eq_true,
        if_false] at htr2 ⊢
      omega
    | ok problem =>
      dsimp only
      rcases hA : run_swe_agent w world problem with ⟨res3, tr3⟩
      have htr3 : errCommentCount tr3 = 0 := by
        have h0 := errCommentCount_run_swe_agent w world problem
        rw [hA] at h0; exact h0
      cases res3 with
      | error e =>
        simp only [errCommentCount, List.countP_append, List.countP_cons,
          List.countP_nil, isErrEv, isErrorBody_statusBody, Bool.false_eq_true,
          if_false] at htr2 htr3 ⊢
        omega
      | ok results =>
        dsimp only
        rcases hP : apply_patch_to_pr w world (pyGet results.patch "") with ⟨resP, trP⟩
        have htrP : errCommentCount trP = 0 := by
          have h0 := errCommentCount_apply_patch w world (pyGet results.patch "")
          rw [hP] at h0; exact h0
        cases hc : patchCond w results with
        | true =>
          simp only [eq_self_iff_true, if_true]
          cases resP with
          | error e =>
            simp only [errCommentCount, List.countP_append, List.countP_cons,
              List.countP_nil, isErrEv, isErrorBody_statusBody, Bool.false_eq_true,
              if_false] at htr2 htr3 htrP ⊢
            omega
          | ok bm =>
            simp only [errCommentCount, List.countP_append, List.countP_cons,
              List.countP_nil, isErrEv, isErrorBody_statusBody,
              isErrorBody_format_results, Bool.false_eq_true,
              if_false] at htr2 htr3 htrP ⊢
            omega
        | false =>
          simp only [Bool.false_eq_true, if_false]
          simp only [errCommentCount, List.countP_append, List.countP_cons,
            List.countP_nil, isErrEv, isErrorBody_statusBody,
            isErrorBody_format_results, Bool.false_eq_true, if_false]
            at htr2 htr3 ⊢
          omega

/-- C1 counterexample: invoking the program with the invalid command
`deploy` performs an external call before the command is rejected — the
constructor's `get_repo` GitHub API request happens when the wrapper is
built, before `validate_command` raises its `ValueError`.  The trace
prefix strictly before the rejection marker contains an external call,
refuting the claim that the rejection precedes every external call. -/
theorem C1_counterexample_get_repo_precedes_rejection :
    Ev.rejectCommand ∈ (mainModel argsBad sampleWorld).2 ∧
    ((mainModel argsBad sampleWorld).2.takeWhile
        (fun ev => !(ev == Ev.rejectCommand))).any Ev.isExternal = true := by
  decide

/-- C1 (amended): for every invocation of `run` with a command outside
the valid set, the `ValueError` raised by `validate_command` precedes
every external call made by `run` itself — the trace before the rejection
marker contains no external call, the result is the `ValueError`, and the
only calls after the rejection are the two of the error report.  (The
constructor's `get_repo` API call, made before `run` starts, is what the
original claim fails on.) -/
theorem C1_run_rejects_before_any_external_call (w : Wrapper) (world : World)
    (h : validCmd w.command = false) :
    ((w.run world).2.takeWhile (fun ev => !(ev == Ev.rejectCommand))).all
        (fun ev => !ev.isExternal) = true ∧
    (w.run world).1 = .error (.valueError (invalidCommandMsg w.command)) ∧
    (w.run world).2 =
      [.rejectCommand, .ghGetIssue w.issue_number,
       .ghCreateComment (post_error_body w.command
         ("ValueError: " ++ invalidCommandMsg w.command))] := by
  rw [run_invalid_eq w world h]
  refine ⟨?_, rfl, rfl⟩
  simp [List.takeWhile_cons]

/-- Witness for C1 (amended) at a concrete invalid command. -/
theorem C1_witness :
    validCmd wrapperBad.command = false ∧
    ((wrapperBad.run sampleWorld).2.takeWhile
        (fun ev => !(ev == Ev.rejectCommand))).all (fun ev => !ev.isExternal) = true ∧
    (wrapperBad.run sampleWorld).1 =
      .error (.valueError (invalidCommandMsg wrapperBad.command)) := by
  have h := C1_run_rejects_before_any_external_call wrapperBad sampleWorld (by decide)
  exact ⟨by decide, h.1, h.2.1⟩

/-- C2: whenever the try-block of `run` raises an exception, `run` posts
exactly one error-template comment, that comment reports the raised
exception, and the same exception is re-raised as `run`'s outcome. -/
theorem C2_run_reports_and_reraises (w : Wrapper) (world : World) (e : PyErr)
    (tr : List Ev) (sc : Bool) (h : w.run_body world = (.error e, tr, sc)) :
    (w.run world).1 = .error e ∧
    errCommentCount (w.run world).2 = 1 ∧
    Ev.ghCreateComment (post_error_body w.command e.render) ∈ (w.run world).2 := by
  have htr : errCommentCount tr = 0 := by
    have h0 := errCommentCount_run_body w world
    rw [h] at h0; exact h0
  unfold Wrapper.run
  rw [h]
  dsimp only
  refine ⟨rfl, ?_, ?_⟩
  · cases sc <;>
      simp only [errCommentCount, List.countP_append, List.countP_cons,
        List.countP_nil, isErrEv, isErrorBody_post_error_body, if_true,
        eq_self_iff_true, Bool.false_eq_true, if_false] at htr ⊢ <;>
      omega
  · cases sc <;> simp

/-- Witness for C2 at a concrete failing run. -/
theorem C2_witness :
    (wrapperBad.run sampleWorld).1 =
        .error (.valueError (invalidCommandMsg wrapperBad.command)) ∧
    errCommentCount (wrapperBad.run sampleWorld).2 = 1 := by
  have h := C2_run_reports_and_reraises wrapperBad sampleWorld
      (.valueError (invalidCommandMsg wrapperBad.command))
      [.rejectCommand] false rfl
  exact ⟨h.1, h.2.1⟩

/-- C7: for every program invocation whose `--command` value is outside
the valid set, the program raises the `ValueError`, posts the fixed-format
error comment, and proceeds no further: the complete trace is the
constructor's repository lookup, the rejection, and the error report —
no agent run and no git operation. -/
theorem C7_main_rejects_invalid_command (a : Args) (world : World)
    (h : validCmd a.command = false) :
    mainModel a world =
      (.error (.valueError (invalidCommandMsg a.command)),
       [.ghGetRepo a.repo, .rejectCommand, .ghGetIssue a.issue_number,
        .ghCreateComment (post_error_body a.command
          ("ValueError: " ++ invalidCommandMsg a.command))]) := by
  unfold mainModel mkWrapper
  dsimp only
  rw [run_invalid_eq ⟨a.repo, a.issue_number, a.context, a.command,
      some a.pr_head_ref, some a.pr_base_ref⟩ world h]
  rfl

/-- Witness for C7 at a concrete invalid command. -/
theorem C7_witness :
    mainModel argsBad sampleWorld =
      (.error (.valueError (invalidCommandMsg argsBad.command)),
       [.ghGetRepo argsBad.repo, .rejectCommand, .ghGetIssue argsBad.issue_number,
        .ghCreateComment (post_error_body argsBad.command
          ("ValueError: " ++ invalidCommandMsg argsBad.command))]) :=
  C7_main_rejects_invalid_command argsBad sampleWorld (by decide)

/-- C8: `hello_world` takes no arguments and always returns exactly the
string `Hello, World!`. -/
theorem C8_hello_world_constant : hello_world = "Hello, World!" := rfl


/-- C9: for every context type outside
`issues`, `issue_comment`, `pull_request`, `pull_request_comment`,
`extract_problem_statement` returns `None` without raising and without
making any external call, and `run` passes that `None` on as the problem
statement of the agent step, where the f-string renders it as `None`. -/
theorem C9_unknown_context_returns_none (w : Wrapper) (world : World)
    (h1 : isIssueContext w.context_type = false)
    (h2 : isPRContext w.context_type = false) :
    extract_problem_statement w world = (.ok none, []) ∧
    (validCmd w.command = true →
      Ev.agentRun (commandPrefix w.command "None") ∈ (w.run world).2) := by
  have hext : extract_problem_statement w world = (.ok none, []) := by
    unfold extract_problem_statement
    rw [h1, h2]
    simp
  refine ⟨hext, fun hv => ?_⟩
  obtain ⟨d, hd⟩ := validate_command_isOk w.command hv
  unfold Wrapper.run Wrapper.run_body
  rw [hd]
  dsimp only
  rw [hext]
  dsimp only
  rcases hAg : run_swe_agent w world none with ⟨res3, tr3⟩
  have hmem : Ev.agentRun (commandPrefix w.command "None") ∈ tr3 := by
    have htr : tr3 = (run_swe_agent w world none).2 := by rw [hAg]
    rw [htr]
    unfold run_swe_agent
    cases world.agent <;> simp [pyStr]
  cases res3 with
  | error e =>
    dsimp only
    simp [List.mem_append, hmem]
  | ok results =>
    dsimp only
    rcases hP : apply_patch_to_pr w world (pyGet results.patch "") with ⟨resP, trP⟩
    cases hc : patchCond w results <;> cases resP <;>
      simp [List.mem_append, hmem]

/-- Witness for C9 at a concrete unrecognised context type. -/
theorem C9_witness :
    extract_problem_statement wrapperOdd sampleWorld = (.ok none, []) ∧
    Ev.agentRun (commandPrefix wrapperOdd.command "None") ∈
      (wrapperOdd.run sampleWorld).2 := by
  have h := C9_unknown_context_returns_none wrapperOdd sampleWorld
    (by decide) (by decide)
  exact ⟨h.1, h.2 (by decide)⟩

theorem patchAttempted_extract (w : Wrapper) (world : World) :
    patchAttempted (extract_problem_statement w world).2 = false := by
  unfold extract_problem_statement patchAttempted
  split
  · cases world.getIssue <;> simp [isApplyCall]
  · split
    · cases world.getPull <;> simp [isApplyCall]
    · simp

theorem patchAttempted_run_swe_agent (w : Wrapper) (world : World)
    (p : Option String) :
    patchAttempted (run_swe_agent w world p).2 = false := by
  unfold run_swe_agent patchAttempted
  cases world.agent <;> simp [isApplyCall]

theorem patchAttempted_apply (w : Wrapper) (world : World) (patch : String) :
    patchAttempted (apply_patch_to_pr w world patch).2 = false := by
  unfold apply_patch_to_pr patchAttempted
  split
  · simp
  · cases world.clone with
    | error e => simp [isApplyCall]
    | ok u =>
      cases world.checkout with
      | error e => simp [isApplyCall]
      | ok u2 =>
        cases world.applyPatch with
        | error e => simp [isApplyCall]
        | ok u3 =>
          cases world.push with
          | error e => simp [isApplyCall]
          | ok u4 => simp [isApplyCall]

/-- C3 (amended): in every run that reaches the agent step, a
patch-application is attempted exactly when `patchCond` holds — the
command is `fix`, the result's patch is a non-empty string, and the
context is a pull-request context.  The claim as stated omits the
`fix`-command requirement. -/
theorem C3_patch_attempt_iff_fix (w : Wrapper) (world : World) (r : AgentResult)
    (p : Option String) (tr2 : List Ev)
    (hv : validCmd w.command = true)
    (hE : extract_problem_statement w world = (.ok p, tr2))
    (hA : world.agent = .ok r) :
    patchAttempted (w.run world).2 = patchCond w r := by
  obtain ⟨d, hd⟩ := validate_command_isOk w.command hv
  have htr2 : patchAttempted tr2 = false := by
    have h0 := patchAttempted_extract w world
    rw [hE] at h0; exact h0
  unfold Wrapper.run Wrapper.run_body
  rw [hd]
  dsimp only
  rw [hE]
  dsimp only
  rcases hAg : run_swe_agent w world p with ⟨res3, tr3⟩
  have hres : res3 = .ok r := by
    have h1 : (run_swe_agent w world p).1 = res3 := by rw [hAg]
    rw [← h1]; unfold run_swe_agent; rw [hA]
  have htr3 : patchAttempted tr3 = false := by
    have h0 := patchAttempted_run_swe_agent w world p
    rw [hAg] at h0; exact h0
  subst hres
  dsimp only
  rcases hP : apply_patch_to_pr w world (pyGet r.patch "") with ⟨resP, trP⟩
  have htrP : patchAttempted trP = false := by
    have h0 := patchAttempted_apply w world (pyGet r.patch "")
    rw [hP] at h0; exact h0
  simp only [patchAttempted] at htr2 htr3 htrP
  cases hc : patchCond w r with
  | true =>
    cases resP <;>
      simp [patchAttempted, List.any_append, isApplyCall]
  | false =>
    simp [patchAttempted, List.any_append, isApplyCall, htr2, htr3]


/-- C3 counterexample: a run whose agent result contains a non-empty
patch string in a pull-request context, but whose command is `review`.
The claim says every such run attempts patch application; the code
additionally requires the command to be `fix`, so no attempt is made. -/
theorem C3_counterexample_review_no_attempt :
    sampleWorld.agent = Except.ok sampleResult ∧
    truthyStr sampleResult.patch = true ∧
    isPRContext wrapperReview.context_type = true ∧
    patchAttempted (wrapperReview.run sampleWorld).2 = false := by
  refine ⟨rfl, by decide, by decide, ?_⟩
  decide

/-- Witness for C3 (amended) at a concrete `fix` run with a patch. -/
theorem C3_witness :
    patchAttempted (wrapperFix.run sampleWorld).2 = patchCond wrapperFix sampleResult :=
  C3_patch_attempt_iff_fix wrapperFix sampleWorld sampleResult
    (some (prHeader samplePR)) [.ghGetPull 5] (by decide) rfl rfl

/-- C5: when `apply_patch_to_pr` runs in a pull-request context with a
truthy head ref and every git operation succeeds, its trace is exactly
clone, checkout, patch-file write, apply, stage, commit, push — so the
six steps named by the claim occur in the claimed order (staging being
part of committing the changes) — and it returns
`(True, "Patch applied successfully")`. -/
theorem C5_apply_patch_success_steps (w : Wrapper) (world : World) (patch : String)
    (h1 : truthyOpt w.pr_head_ref = true)
    (h2 : isPRContext w.context_type = true)
    (hc : world.clone = .ok ()) (hk : world.checkout = .ok ())
    (ha : world.applyPatch = .ok ()) (hp : world.push = .ok ()) :
    apply_patch_to_pr w world patch =
      (.ok (true, "Patch applied successfully"),
       [.gitClone (cloneUrl world.token w.repo_name),
        .gitCheckout (w.pr_head_ref.getD ""),
        .writePatchFile patch, .gitApply, .gitAdd,
        .gitCommit (patchCommitMsg w.issue_number),
        .gitPush (w.pr_head_ref.getD "")]) ∧
    [Ev.gitClone (cloneUrl world.token w.repo_name),
     Ev.gitCheckout (w.pr_head_ref.getD ""),
     Ev.writePatchFile patch, Ev.gitApply,
     Ev.gitCommit (patchCommitMsg w.issue_number),
     Ev.gitPush (w.pr_head_ref.getD "")].Sublist
      (apply_patch_to_pr w world patch).2 := by
  have heq : apply_patch_to_pr w world patch =
      (.ok (true, "Patch applied successfully"),
       [.gitClone (cloneUrl world.token w.repo_name),
        .gitCheckout (w.pr_head_ref.getD ""),
        .writePatchFile patch, .gitApply, .gitAdd,
        .gitCommit (patchCommitMsg w.issue_number),
        .gitPush (w.pr_head_ref.getD "")]) := by
    unfold apply_patch_to_pr
    rw [h1, h2, hc, hk, ha, hp]
    simp
  refine ⟨heq, ?_⟩
  rw [heq]
  exact
    (List.Sublist.cons₂ _ (List.Sublist.cons₂ _ (List.Sublist.cons₂ _
      (List.Sublist.cons₂ _ (List.Sublist.cons _ (List.Sublist.cons₂ _
        (List.Sublist.cons₂ _ List.Sublist.slnil)))))))

/-- Witness for C5 at a concrete successful patch application. -/
theorem C5_witness :
    apply_patch_to_pr wrapperFix sampleWorld "PATCHTEXT" =
      (.ok (true, "Patch applied successfully"),
       [.gitClone (cloneUrl sampleWorld.token wrapperFix.repo_name),
        .gitCheckout (wrapperFix.pr_head_ref.getD ""),
        .writePatchFile "PATCHTEXT", .gitApply, .gitAdd,
        .gitCommit (patchCommitMsg wrapperFix.issue_number),
        .gitPush (wrapperFix.pr_head_ref.getD "")]) :=
  (C5_apply_patch_success_steps wrapperFix sampleWorld "PATCHTEXT"
    (by decide) (by decide) rfl rfl rfl rfl).1

/-- C10: `apply_patch_to_pr` never raises: its result is always an
`ok` pair of a Boolean and a message; when the head ref is falsy or the
context is not a pull-request context it returns
`(False, "Not a pull request context")` with no git operation performed;
and whenever any git step fails it returns `False` with a message. -/
theorem C10_apply_patch_never_raises (w : Wrapper) (world : World) (patch : String) :
    (∃ b s, (apply_patch_to_pr w world patch).1 = .ok (b, s)) ∧
    ((truthyOpt w.pr_head_ref = false ∨ isPRContext w.context_type = false) →
      apply_patch_to_pr w world patch =
        (.ok (false, "Not a pull request context"), [])) ∧
    (((∃ e, world.clone = .error e) ∨ (∃ e, world.checkout = .error e) ∨
        (∃ e, world.applyPatch = .error e) ∨ (∃ e, world.push = .error e)) →
      ∃ m, (apply_patch_to_pr w world patch).1 = .ok (false, m)) := by
  unfold apply_patch_to_pr
  cases hg : (!truthyOpt w.pr_head_ref || !isPRContext w.context_type) with
  | true =>
    simp only [eq_self_iff_true, if_true]
    exact ⟨⟨false, "Not a pull request context", rfl⟩,
           fun _ => trivial, fun _ => ⟨"Not a pull request context", rfl⟩⟩
  | false =>
    have hg2 : truthyOpt w.pr_head_ref = true ∧ isPRContext w.context_type = true := by
      rcases Bool.or_eq_false_iff.mp hg with ⟨ha, hb⟩
      exact ⟨by simpa using ha, by simpa using hb⟩
    simp only [Bool.false_eq_true, if_false]
    refine ⟨?_, ?_, ?_⟩
    · cases world.clone <;> cases world.checkout <;> cases world.applyPatch <;>
        cases world.push <;> exact ⟨_, _, rfl⟩
    · intro h
      rcases h with h | h
      · rw [h] at hg2; exact absurd hg2.1 (by simp)
      · rw [h] at hg2; exact absurd hg2.2 (by simp)
    · intro h
      cases hcl : world.clone with
      | error e => exact ⟨_, rfl⟩
      | ok u =>
        cases hck : world.checkout with
        | error e => exact ⟨_, rfl⟩
        | ok u2 =>
          cases hap : world.applyPatch with
          | error e => exact ⟨_, rfl⟩
          | ok u3 =>
            cases hpu : world.push with
            | error e => exact ⟨_, rfl⟩
            | ok u4 =>
              exfalso
              rcases h with ⟨e, h⟩ | ⟨e, h⟩ | ⟨e, h⟩ | ⟨e, h⟩ <;>
                simp_all
  
/-- Witness for C10 at a concrete non-PR input. -/
theorem C10_witness :
    apply_patch_to_pr wrapperOdd sampleWorld "P" =
      (.ok (false, "Not a pull request context"), []) :=
  (C10_apply_patch_never_raises wrapperOdd sampleWorld "P").2.1 (Or.inl rfl)

theorem lastN_suffix (n : Nat) (l : List α) : lastN n l <:+ l :=
  List.drop_suffix _ _

theorem lastN_length_le (n : Nat) (l : List α) : (lastN n l).length ≤ n := by
  simp only [lastN, List.length_drop]
  omega

theorem lastN_of_le {n : Nat} {l : List α} (h : l.length ≤ n) : lastN n l = l := by
  unfold lastN
  rw [Nat.sub_eq_zero_of_le h, List.drop_zero]

theorem containsInOrder_comments (cs : List CommentData) :
    containsInOrder (cs.map fun c => c.body.data)
      (catStr (cs.map commentBlock)).data = true := by
  induction cs with
  | nil => rfl
  | cons c rest ih =>
    simp only [List.map_cons, catStr, commentBlock, String.data_append,
      List.append_assoc]
    apply containsInOrder_prepend
    apply containsInOrder_prepend
    apply containsInOrder_prepend
    apply containsInOrder_cons
    apply containsInOrder_prepend
    exact ih

theorem containsInOrder_issue (d : IssueData) :
    containsInOrder
      (d.title.data :: d.body.data ::
        (lastN 5 d.comments).map fun c => c.body.data)
      (issueHeader d ++ recentSection d.comments).data = true := by
  unfold issueHeader recentSection
  cases hcs : d.comments.isEmpty with
  | true =>
    have hnil : d.comments = [] := List.isEmpty_iff.mp hcs
    rw [hnil]
    simp only [List.isEmpty_nil, if_true, eq_self_iff_true]
    simp only [lastN, List.drop_nil, List.map_nil, String.data_append,
      List.append_assoc]
    apply containsInOrder_prepend
    apply containsInOrder_cons
    apply containsInOrder_prepend
    apply containsInOrder_cons
    rfl
  | false =>
    simp only [Bool.false_eq_true, if_false]
    simp only [String.data_append, List.append_assoc]
    apply containsInOrder_prepend
    apply containsInOrder_cons
    apply containsInOrder_prepend
    apply containsInOrder_cons
    apply containsInOrder_prepend
    apply containsInOrder_prepend
    exact containsInOrder_comments (lastN 5 d.comments)

theorem isIssueContext_eq_false_of_pr {ct : String}
    (h : isPRContext ct = true) : isIssueContext ct = false := by
  simp only [isPRContext, Bool.or_eq_true, beq_iff_eq] at h
  rcases h with h | h <;> subst h <;> decide

/-- C4 (amended): for issue contexts the problem statement is the
issue header (title and description) followed by the rendered recent
comments, which are a suffix of the comment list of length at most five
(all of them when there are at most five), and the title, body and those
comments appear in the statement in order.  For pull-request contexts the
statement is the PR title and description only: no comments are fetched
or included. -/
theorem C4_problem_statement_structure (w : Wrapper) (world : World) :
    (∀ d : IssueData, isIssueContext w.context_type = true →
      world.getIssue = .ok d →
      (extract_problem_statement w world).1 =
          .ok (some (issueHeader d ++ recentSection d.comments)) ∧
      lastN 5 d.comments <:+ d.comments ∧
      (lastN 5 d.comments).length ≤ 5 ∧
      (d.comments.length ≤ 5 → lastN 5 d.comments = d.comments) ∧
      containsInOrder
        (d.title.data :: d.body.data ::
          (lastN 5 d.comments).map fun c => c.body.data)
        (issueHeader d ++ recentSection d.comments).data = true) ∧
    (∀ p : PRData, isPRContext w.context_type = true →
      world.getPull = .ok p →
      extract_problem_statement w world =
        (.ok (some (prHeader p)), [.ghGetPull w.issue_number])) := by
  constructor
  · intro d hctx hIss
    have hext : (extract_problem_statement w world).1 =
        .ok (some (issueHeader d ++ recentSection d.comments)) := by
      unfold extract_problem_statement
      rw [hctx, hIss]
      simp
    exact ⟨hext, lastN_suffix 5 d.comments, lastN_length_le 5 d.comments,
      fun h => lastN_of_le h, containsInOrder_issue d⟩
  · intro p hctx hPull
    unfold extract_problem_statement
    rw [isIssueContext_eq_false_of_pr hctx, hctx, hPull]
    simp


/-- C4 counterexample: a pull request with one comment whose body is
`XYZZY`.  The problem statement built for it is title and description
only; the comment does not occur in it, so the statement is not the
concatenation of title, body and the most recent comments. -/
theorem C4_counterexample_pr_comment_missing :
    (extract_problem_statement wrapperFix sampleWorld).1 =
      .ok (some (prHeader samplePR)) ∧
    samplePR.comments = [⟨"bob", "XYZZY"⟩] ∧
    containsInOrder
      (samplePR.title.data :: samplePR.body.data ::
        (lastN 5 samplePR.comments).map fun c => c.body.data)
      (prHeader samplePR).data = false := by
  refine ⟨rfl, rfl, ?_⟩
  decide

/-- Witness for C4 (amended) at a concrete issue and a concrete PR. -/
theorem C4_witness :
    (extract_problem_statement wrapperIssue sampleWorld).1 =
        .ok (some (issueHeader sampleIssue ++ recentSection sampleIssue.comments)) ∧
    extract_problem_statement wrapperFix sampleWorld =
        (.ok (some (prHeader samplePR)), [.ghGetPull 5]) :=
  ⟨((C4_problem_statement_structure wrapperIssue sampleWorld).1 sampleIssue
      (by decide) rfl).1,
   (C4_problem_statement_structure wrapperFix sampleWorld).2 samplePR
      (by decide) rfl⟩

theorem strContains_mid3 (a sub b : String) :
    strContains (a ++ (sub ++ b)) sub = true :=
  strContains_append_left a (sub ++ b) sub
    (strContains_append_right sub b sub (strContains_self sub))

/-- C6 (amended): for every result object, the comment built by
`format_results` contains the command line, the model line (with the
`Unknown` placeholder when missing), the cost line, and the status line;
for `analyze` it contains the analysis (or its placeholder); for `fix`
with a truthy patch it contains the patch and the explanation (or its
placeholder); for `fix` without a patch it contains the fixed
no-code-changes note instead of a diff section; for `test` the test
output (or its placeholder); for `review` the review comments (or their
placeholder). -/
theorem C6_format_results_fields (w : Wrapper) (r : AgentResult)
    (pa : Bool) (pm : String) :
    strContains (format_results w r pa pm) (commandLine w.command) = true ∧
    strContains (format_results w r pa pm)
      (modelLine (pyGet r.model_name "Unknown")) = true ∧
    strContains (format_results w r pa pm)
      (costLine (pyFormatDot2 (r.total_cost.getD 0))) = true ∧
    strContains (format_results w r pa pm)
      (statusLine (if r.success then "Success" else "Completed with issues")) = true ∧
    (w.command = "analyze" →
      strContains (format_results w r pa pm)
        (pyGet r.analysis "No analysis provided") = true) ∧
    (w.command = "fix" → truthyStr r.patch = true →
      strContains (format_results w r pa pm)
        (pyGet r.patch "No changes proposed") = true ∧
      strContains (format_results w r pa pm)
        (pyGet r.explanation "No explanation provided") = true) ∧
    (w.command = "fix" → truthyStr r.patch = false →
      strContains (format_results w r pa pm)
        "No code changes were necessary to address this issue." = true) ∧
    (w.command = "test" →
      strContains (format_results w r pa pm)
        (pyGet r.test_output "No test output available") = true) ∧
    (w.command = "review" →
      strContains (format_results w r pa pm)
        (pyGet r.review_comments "No review comments provided") = true) := by
  refine ⟨?_, ?_, ?_, ?_, ?_, ?_, ?_, ?_, ?_⟩
  · unfold format_results
    apply strContains_append_right
    unfold baseResponse
    exact strContains_mid3 _ _ _
  · unfold format_results
    apply strContains_append_right
    unfold baseResponse
    apply strContains_append_left
    apply strContains_append_left
    exact strContains_mid3 _ _ _
  · unfold format_results
    apply strContains_append_right
    unfold baseResponse
    apply strContains_append_left
    apply strContains_append_left
    apply strContains_append_left
    apply strContains_append_left
    exact strContains_mid3 _ _ _
  · unfold format_results
    apply strContains_append_right
    unfold baseResponse
    apply strContains_append_left
    apply strContains_append_left
    apply strContains_append_left
    apply strContains_append_left
    apply strContains_append_left
    apply strContains_append_left
    exact strContains_mid3 _ _ _
  · intro h
    unfold format_results
    apply strContains_append_left
    apply strContains_append_right
    unfold commandSection
    rw [h]
    simp only [beq_self_eq_true, eq_self_iff_true, if_true]
    exact strContains_mid3 _ _ _
  · intro h ht
    unfold format_results
    constructor
    · apply strContains_append_left
      apply strContains_append_right
      unfold commandSection
      rw [h, ht]
      have hne : (("fix" : String) == "analyze") = false := by decide
      rw [hne]
      simp only [Bool.false_eq_true, if_false, beq_self_eq_true,
        eq_self_iff_true, if_true]
      exact strContains_mid3 _ _ _
    · apply strContains_append_left
      apply strContains_append_right
      unfold commandSection
      rw [h, ht]
      have hne : (("fix" : String) == "analyze") = false := by decide
      rw [hne]
      simp only [Bool.false_eq_true, if_false, beq_self_eq_true,
        eq_self_iff_true, if_true]
      apply strContains_append_left
      apply strContains_append_left
      exact strContains_mid3 _ _ _
  · intro h ht
    unfold format_results
    apply strContains_append_left
    apply strContains_append_right
    unfold commandSection
    rw [h, ht]
    have hne : (("fix" : String) == "analyze") = false := by decide
    rw [hne]
    simp only [Bool.false_eq_true, if_false, beq_self_eq_true,
      eq_self_iff_true, if_true]
    decide
  · intro h
    unfold format_results
    apply strContains_append_left
    apply strContains_append_right
    unfold commandSection
    rw [h]
    have h1 : (("test" : String) == "analyze") = false := by decide
    have h2 : (("test" : String) == "fix") = false := by decide
    rw [h1, h2]
    simp only [Bool.false_eq_true, if_false, beq_self_eq_true,
      eq_self_iff_true, if_true]
    exact strContains_mid3 _ _ _
  · intro h
    unfold format_results
    apply strContains_append_left
    apply strContains_append_right
    unfold commandSection
    rw [h]
    have h1 : (("review" : String) == "analyze") = false := by decide
    have h2 : (("review" : String) == "fix") = false := by decide
    have h3 : (("review" : String) == "test") = false := by decide
    rw [h1, h2, h3]
    simp only [Bool.false_eq_true, if_false, beq_self_eq_true,
      eq_self_iff_true, if_true]
    exact strContains_mid3 _ _ _


set_option maxRecDepth 100000 in
/-- C6 counterexample: for the `fix` command and a result with no patch,
the comment contains neither a proposed-solution diff section, nor the
`No changes proposed` placeholder, nor an explanation section — the code
renders a no-code-changes note instead, so the claim's diff-and-
explanation-with-placeholder rendering does not happen. -/
theorem C6_counterexample_fix_without_patch :
    truthyStr resultNoPatch.patch = false ∧
    strContains (format_results wrapperFix resultNoPatch false "")
      "### Proposed Solution:" = false ∧
    strContains (format_results wrapperFix resultNoPatch false "")
      "No changes proposed" = false ∧
    strContains (format_results wrapperFix resultNoPatch false "")
      "### Explanation:" = false := by
  refine ⟨rfl, ?_, ?_, ?_⟩ <;> decide

/-- Witness for C6 (amended) at a concrete `fix` result with a patch. -/
theorem C6_witness :
    strContains (format_results wrapperFix sampleResult true "")
      (commandLine wrapperFix.command) = true ∧
    strContains (format_results wrapperFix sampleResult true "")
      (pyGet sampleResult.patch "No changes proposed") = true ∧
    strContains (format_results wrapperFix sampleResult true "")
      (pyGet sampleResult.explanation "No explanation provided") = true := by
  have h := C6_format_results_fields wrapperFix sampleResult true ""
  have hfix := h.2.2.2.2.2.1 rfl (by decide)
  exact ⟨h.1, hfix.1, hfix.2⟩
